import Mathlib

/-!
Shallow embedding of the trial-and-subscription core of the Glucify backend:
`TrialService` (src/services/trialService.ts), the `user_trials` aggregates
(database migration SQL), and `PaymentService` (the trial-conversion variant
of src/services/paymentService.ts).

Modelling conventions:
* A `user_trials` table is a `List TrialRow`; inserts append, SQL `update`
  statements are maps over the rows they match.
* Timestamps are `Int` milliseconds since the epoch (the code manipulates
  `Date.getTime()` values); Stripe period timestamps are seconds, multiplied
  by 1000 where the code does so.
* User ids are `Nat` (the code treats them as opaque strings).
* Each fallible external interaction (Supabase RPC, Stripe call) is an
  explicit oracle argument (`Except`/`Option`/`Bool`) telling the embedded
  function what that interaction returned; the function then follows the
  source's control flow on that answer.
* JavaScript truthiness on numbers (`x || d` with `0` falsy) is modelled
  explicitly where the source relies on it.
-/

/-- `TrialService.TRIAL_DURATION_DAYS`. -/
def TRIAL_DURATION_DAYS : Nat := 14

/-- `TrialService.MAX_BETA_USERS`. -/
def MAX_BETA_USERS : Nat := 100

/-- Milliseconds per day, `24 * 60 * 60 * 1000` in the source. -/
def msPerDay : Int := 86400000

/-- One row of the `user_trials` table (the generated `id` and the
audit timestamps `created_at` / `updated_at` are not modelled: no embedded
operation reads them). -/
structure TrialRow where
  userId : Nat
  email : String
  trialStartDate : Int
  trialEndDate : Int
  isActive : Bool
  isBetaUser : Bool
  betaUserNumber : Option Nat
deriving Repr, DecidableEq

/-- JavaScript `x || dflt` for an optionally-null number: `null`/`undefined`
and `0` are falsy. -/
def jsOrNat (d : Option Nat) (dflt : Nat) : Nat :=
  match d with
  | none => dflt
  | some 0 => dflt
  | some n => n

/-- `TrialService.getBetaUserCount`: calls the `get_beta_user_count` RPC;
on an error result (or a thrown error) returns `0`, otherwise `data || 0`. -/
def getBetaUserCount (rpc : Except Unit (Option Nat)) : Nat :=
  match rpc with
  | .error _ => 0
  | .ok d => jsOrNat d 0

/-- `TrialService.getNextBetaUserNumber`: calls the `get_next_beta_user_number`
RPC; on an error result (or a thrown error) returns `1`, otherwise `data || 1`. -/
def getNextBetaUserNumber (rpc : Except Unit (Option Nat)) : Nat :=
  match rpc with
  | .error _ => 1
  | .ok d => jsOrNat d 1

/-- The SQL function `get_beta_user_count`:
`COUNT(*) FROM user_trials WHERE is_beta_user = true AND is_active = true`. -/
def betaUserCountAgg (s : List TrialRow) : Nat :=
  (s.filter (fun r => r.isBetaUser && r.isActive)).length

/-- `MAX(beta_user_number)` over beta rows, `COALESCE`d to 0: the inner
aggregate of the SQL function `get_next_beta_user_number`
(`COALESCE(MAX(beta_user_number), 0) FROM user_trials WHERE is_beta_user = true`). -/
def maxBetaUserNumber (s : List TrialRow) : Nat :=
  s.foldr (fun r m => if r.isBetaUser then max (r.betaUserNumber.getD 0) m else m) 0

/-- The SQL function `get_next_beta_user_number`:
`COALESCE(MAX(beta_user_number), 0) + 1 FROM user_trials WHERE is_beta_user = true`. -/
def nextBetaUserNumberAgg (s : List TrialRow) : Nat :=
  maxBetaUserNumber s + 1

/-- `TrialService.createTrial(userId, email)`. The two RPC answers are passed
as oracles; the insert is assumed to succeed (its failure path just rethrows).
Returns the new table together with the inserted row (which the source maps
back and returns). -/
def createTrial (countRpc nextRpc : Except Unit (Option Nat)) (now : Int)
    (userId : Nat) (email : String) (s : List TrialRow) :
    List TrialRow × TrialRow :=
  let trialStartDate := now
  let trialEndDate := now + (TRIAL_DURATION_DAYS : Int) * msPerDay
  let betaUserCount := getBetaUserCount countRpc
  let isBetaUser : Bool := betaUserCount < MAX_BETA_USERS
  let betaUserNumber : Option Nat :=
    if isBetaUser then some (getNextBetaUserNumber nextRpc) else none
  let row : TrialRow :=
    { userId := userId
      email := email
      trialStartDate := trialStartDate
      trialEndDate := trialEndDate
      isActive := true
      isBetaUser := isBetaUser
      -- `beta_user_number: betaUserNumber || null`
      betaUserNumber := match betaUserNumber with
        | some 0 => none
        | v => v }
  (s ++ [row], row)

/-- `TrialService.endTrial(userId)`: `update({is_active: false}).eq('user_id', userId)`
(the `.eq('is_active', true)` filter is commented out in the source, so the
update matches every row of the user). -/
def endTrial (userId : Nat) (s : List TrialRow) : List TrialRow :=
  s.map (fun r => if r.userId == userId then { r with isActive := false } else r)

/-- Supabase `.single()`: yields the row when the query matched exactly one,
otherwise an error (which every caller in the source turns into a null/false
result). -/
def singleRow (p : TrialRow → Bool) (s : List TrialRow) : Option TrialRow :=
  match s.filter p with
  | [t] => some t
  | _ => none

/-- `Math.ceil(a / msPerDay)` on an exact integer numerator. -/
def ceilDivDay (a : Int) : Int :=
  -((-a).ediv msPerDay)

/-- The `TrialStatus` payload built by `TrialService.getTrialStatus`. -/
structure TrialStatus where
  isInTrial : Bool
  trialDaysRemaining : Int
  trialEndDate : Int
  isBetaUser : Bool
  betaUserNumber : Option Nat
  shouldShowPayment : Bool
deriving Repr, DecidableEq

/-- `TrialService.getTrialStatus(userId)`: selects the single row with
`user_id = userId AND is_active = true` (null when absent), then computes
`isInTrial`, `trialDaysRemaining` and `shouldShowPayment`. -/
def getTrialStatus (now : Int) (userId : Nat) (s : List TrialRow) :
    Option TrialStatus :=
  match singleRow (fun r => r.userId == userId && r.isActive) s with
  | none => none
  | some trial =>
    let isInTrial : Bool := trial.isActive && now < trial.trialEndDate
    let trialDaysRemaining : Int :=
      if isInTrial then ceilDivDay (trial.trialEndDate - now) else 0
    some
      { isInTrial := isInTrial
        trialDaysRemaining := trialDaysRemaining
        trialEndDate := trial.trialEndDate
        isBetaUser := trial.isBetaUser
        -- `betaUserNumber: trial.betaUserNumber || undefined`
        betaUserNumber := match trial.betaUserNumber with
          | some 0 => none
          | v => v
        shouldShowPayment := !isInTrial }

/-- `TrialService.isBetaUser(userId)`: selects `is_beta_user` of the single
active row of the user; false when the query errors or finds nothing. -/
def isBetaUser (userId : Nat) (s : List TrialRow) : Bool :=
  match singleRow (fun r => r.userId == userId && r.isActive) s with
  | none => false
  | some t => t.isBetaUser

/-- `TrialService.canGetBetaPricing(userId)`: returns false outright when the
beta count has reached `MAX_BETA_USERS`, otherwise
`isBetaUser || betaUserCount < MAX_BETA_USERS`. -/
def canGetBetaPricing (countRpc : Except Unit (Option Nat)) (userId : Nat)
    (s : List TrialRow) : Bool :=
  let betaUserCount := getBetaUserCount countRpc
  if betaUserCount ≥ MAX_BETA_USERS then false
  else isBetaUser userId s || decide (betaUserCount < MAX_BETA_USERS)

/-- `TrialService.cleanupExpiredTrials()`:
`update({is_active: false}).lt('trial_end_date', now).eq('is_active', true).select('id')`,
returning the updated table and the number of rows the update matched. -/
def cleanupExpiredTrials (now : Int) (s : List TrialRow) :
    List TrialRow × Nat :=
  (s.map (fun r =>
      if r.trialEndDate < now && r.isActive then { r with isActive := false } else r),
   (s.filter (fun r => r.trialEndDate < now && r.isActive)).length)

/-- One entry of the static `SUBSCRIPTION_PLANS` catalog. Prices are in
cents (the source stores decimal dollar amounts); `stripePriceId` holds the
name of the environment variable whose value the source reads, standing for
that opaque configured string. `isBeta` is an optional field in the source,
absent (falsy) on the regular plans. -/
structure SubscriptionPlan where
  id : String
  name : String
  priceCents : Nat
  interval : String
  stripePriceId : String
  features : List String
  isBeta : Bool := false
  maxUsers : Option Nat := none
deriving Repr, DecidableEq

/-- The `beta-monthly` catalog entry. -/
def betaMonthly : SubscriptionPlan :=
  { id := "beta-monthly"
    name := "Beta Monthly"
    priceCents := 999
    interval := "month"
    stripePriceId := "STRIPE_BETA_MONTHLY_PRICE_ID"
    features := ["Unlimited food analysis", "AI meal planning",
                 "Glucose tracking", "Priority support",
                 "Early access to new features", "Locked at $9.99 forever"]
    isBeta := true
    maxUsers := some 100 }

/-- The `beta-yearly` catalog entry. -/
def betaYearly : SubscriptionPlan :=
  { id := "beta-yearly"
    name := "Beta Yearly"
    priceCents := 9590
    interval := "year"
    stripePriceId := "STRIPE_BETA_YEARLY_PRICE_ID"
    features := ["Unlimited food analysis", "AI meal planning",
                 "Glucose tracking", "Priority support",
                 "Early access to new features", "20% discount on yearly plan",
                 "Locked at $9.99 forever"]
    isBeta := true
    maxUsers := some 100 }

/-- The `regular-monthly` catalog entry. -/
def regularMonthly : SubscriptionPlan :=
  { id := "regular-monthly"
    name := "Regular Monthly"
    priceCents := 2499
    interval := "month"
    stripePriceId := "STRIPE_REGULAR_MONTHLY_PRICE_ID"
    features := ["Unlimited food analysis", "AI meal planning",
                 "Glucose tracking", "Email support", "All features included"] }

/-- The `regular-yearly` catalog entry. -/
def regularYearly : SubscriptionPlan :=
  { id := "regular-yearly"
    name := "Regular Yearly"
    priceCents := 23990
    interval := "year"
    stripePriceId := "STRIPE_REGULAR_YEARLY_PRICE_ID"
    features := ["Unlimited food analysis", "AI meal planning",
                 "Glucose tracking", "Email support", "All features included",
                 "20% discount on yearly plan"] }

/-- The `SUBSCRIPTION_PLANS` constant. -/
def SUBSCRIPTION_PLANS : List SubscriptionPlan :=
  [betaMonthly, betaYearly, regularMonthly, regularYearly]

/-- `PaymentService.getPlan(planId)`: `SUBSCRIPTION_PLANS.find(...) || null`. -/
def getPlan (planId : String) : Option SubscriptionPlan :=
  SUBSCRIPTION_PLANS.find? (fun p => p.id == planId)

/-- The plan-correction block of `PaymentService.createSubscription`
(lines computing `finalPlan` from `plan` and `isBetaEligible`). The `getD`
models the source's non-null assertion on the catalog lookups. -/
def determineFinalPlan (plan : SubscriptionPlan) (isBetaEligible : Bool) :
    SubscriptionPlan :=
  if plan.isBeta && !isBetaEligible then
    if plan.interval == "month" then (getPlan "regular-monthly").getD plan
    else (getPlan "regular-yearly").getD plan
  else if !plan.isBeta && isBetaEligible then
    if plan.interval == "month" then (getPlan "beta-monthly").getD plan
    else (getPlan "beta-yearly").getD plan
  else plan

/-- The `UserSubscription` record built and cached by `PaymentService`.
Timestamps are `Int` milliseconds. -/
structure UserSubscription where
  id : String
  userId : Nat
  stripeCustomerId : String
  stripeSubscriptionId : Option String
  planId : String
  status : String
  currentPeriodStart : Int
  currentPeriodEnd : Int
  trialEnd : Option Int := none
  cancelAtPeriodEnd : Bool
  createdAt : Int
  updatedAt : Int
deriving Repr, DecidableEq

/-- `Map.set` on a `userId`-keyed association list. -/
def mapSet {α : Type} (k : Nat) (v : α) (m : List (Nat × α)) : List (Nat × α) :=
  (k, v) :: m.filter (fun p => p.1 != k)

/-- `Map.get` on a `userId`-keyed association list. -/
def mapGet {α : Type} (k : Nat) (m : List (Nat × α)) : Option α :=
  (m.find? (fun p => p.1 == k)).map Prod.snd

/-- `Map.delete` on a `userId`-keyed association list. -/
def mapDelete {α : Type} (k : Nat) (m : List (Nat × α)) : List (Nat × α) :=
  m.filter (fun p => p.1 != k)

/-- The module-level mutable state of the payment service together with the
trial table it writes through to: the `subscriptions` cache, the `betaUsers`
map (keys only; the stored `BetaUser` payload is never read back), the
`betaUserCount` counter, and the `user_trials` table. -/
structure PayState where
  trials : List TrialRow
  subscriptions : List (Nat × UserSubscription)
  betaUsers : List Nat
  betaUserCount : Nat
deriving Repr, DecidableEq

/-- The argument record of the `stripe.subscriptions.create` call issued by
`createSubscription`: the customer, the single price item, and the metadata
fields. -/
structure StripeSubRequest where
  customer : String
  priceId : String
  metaUserId : Nat
  metaPlanId : String
  metaIsBetaUser : String
deriving Repr, DecidableEq

/-- The fields of a Stripe subscription object that `createSubscription`
reads back (period timestamps in seconds). -/
structure StripeSubObject where
  id : String
  currentPeriodStart : Int
  currentPeriodEnd : Int
deriving Repr, DecidableEq

/-- Everything observable about one `createSubscription` run: the final
state, the `stripe.subscriptions.create` request if one was issued, and the
returned projection or the thrown error. -/
structure CreateSubOutcome where
  state : PayState
  stripeRequest : Option StripeSubRequest
  result : Except String UserSubscription
deriving Repr

/-- The best-effort trial-table write at the end of
`PaymentService.createSubscription`: `update({trial_start_date: now,
trial_end_date: now + 1 year, is_active: true, ...}).eq('user_id', userId)`. -/
def subscriptionTrialUpdate (now : Int) (userId : Nat) (s : List TrialRow) :
    List TrialRow :=
  s.map (fun r =>
    if r.userId == userId then
      { r with trialStartDate := now
               trialEndDate := now + 365 * msPerDay
               isActive := true }
    else r)

/-- `PaymentService.createSubscription(userId, email, request)`. Oracles:
`countRpc` is the beta-count RPC answer seen by the eligibility check,
`customerRes` the outcome of `createOrGetCustomer`, `endTrialOk` whether the
`endTrial` update succeeded, `stripeRes` the outcome of
`stripe.subscriptions.create`, and `trialUpdateOk` whether the best-effort
trial-table update succeeded (its failure is swallowed). Every thrown error
surfaces through the catch block as `Failed to create subscription`. -/
def createSubscription (now : Int) (countRpc : Except Unit (Option Nat))
    (customerRes : Except Unit String) (endTrialOk : Bool)
    (stripeRes : Except Unit StripeSubObject) (trialUpdateOk : Bool)
    (userId : Nat) (_email : String) (requestPlanId : String)
    (st : PayState) : CreateSubOutcome :=
  match getPlan requestPlanId with
  | none => ⟨st, none, .error "Failed to create subscription"⟩
  | some plan =>
    let isBetaEligible := canGetBetaPricing countRpc userId st.trials
    let finalPlan := determineFinalPlan plan isBetaEligible
    match customerRes with
    | .error _ => ⟨st, none, .error "Failed to create subscription"⟩
    | .ok customerId =>
      if !endTrialOk then ⟨st, none, .error "Failed to create subscription"⟩
      else
        let st1 := { st with trials := endTrial userId st.trials }
        let req : StripeSubRequest :=
          { customer := customerId
            priceId := finalPlan.stripePriceId
            metaUserId := userId
            metaPlanId := finalPlan.id
            metaIsBetaUser := if finalPlan.isBeta then "true" else "false" }
        match stripeRes with
        | .error _ => ⟨st1, some req, .error "Failed to create subscription"⟩
        | .ok sub =>
          let st2 :=
            if finalPlan.isBeta then
              { st1 with
                  betaUsers := userId :: st1.betaUsers.filter (fun u => u != userId)
                  betaUserCount := st1.betaUserCount + 1 }
            else st1
          let userSubscription : UserSubscription :=
            { id := sub.id
              userId := userId
              stripeCustomerId := customerId
              stripeSubscriptionId := some sub.id
              planId := finalPlan.id
              status := "active"
              currentPeriodStart := sub.currentPeriodStart * 1000
              currentPeriodEnd := sub.currentPeriodEnd * 1000
              cancelAtPeriodEnd := false
              createdAt := now
              updatedAt := now }
          let st3 :=
            { st2 with subscriptions := mapSet userId userSubscription st2.subscriptions }
          let st4 :=
            if trialUpdateOk then
              { st3 with trials := subscriptionTrialUpdate now userId st3.trials }
            else st3
          ⟨st4, some req, .ok userSubscription⟩

/-- The fields of the most recent Stripe subscription that the cache-miss
branch of `getUserSubscription` maps into the local shape (timestamps in
seconds; `metaPlanId` is the `planId` metadata entry when present). -/
structure StripeFetchedSub where
  id : String
  metaPlanId : Option String
  status : String
  currentPeriodStart : Int
  currentPeriodEnd : Int
  trialEnd : Option Int
  cancelAtPeriodEnd : Bool
  created : Int
deriving Repr, DecidableEq

/-- `PaymentService.getUserSubscription(userId)`. Cache first; on a miss,
`customerRes` is the customer found by `findCustomerByUserId` (null-safe) and
`listRes` the first subscription returned by `stripe.subscriptions.list`.
The `getPlan(metadata.planId || 'regular-plan')!` lookup throws on an unknown
id (surfaced as `Failed to get subscription` by the catch block); otherwise
the mapped projection is cached and returned. -/
def getUserSubscription (now : Int) (userId : Nat)
    (customerRes : Option String) (listRes : Option StripeFetchedSub)
    (st : PayState) : PayState × Except String (Option UserSubscription) :=
  match mapGet userId st.subscriptions with
  | some subscription => (st, .ok (some subscription))
  | none =>
    match customerRes with
    | none => (st, .ok none)
    | some customerId =>
      match listRes with
      | none => (st, .ok none)
      | some ss =>
        match getPlan (ss.metaPlanId.getD "regular-plan") with
        | none => (st, .error "Failed to get subscription")
        | some plan =>
          let userSubscription : UserSubscription :=
            { id := ss.id
              userId := userId
              stripeCustomerId := customerId
              stripeSubscriptionId := some ss.id
              planId := plan.id
              status := ss.status
              currentPeriodStart := ss.currentPeriodStart * 1000
              currentPeriodEnd := ss.currentPeriodEnd * 1000
              -- `...(trial_end && { trialEnd: ... })`: 0 is falsy
              trialEnd := match ss.trialEnd with
                | some t => if t == 0 then none else some (t * 1000)
                | none => none
              cancelAtPeriodEnd := ss.cancelAtPeriodEnd
              createdAt := ss.created * 1000
              updatedAt := now }
          ({ st with subscriptions := mapSet userId userSubscription st.subscriptions },
           .ok (some userSubscription))

/-- `PaymentService.cancelSubscription(userId)`: looks the subscription up
(through `getUserSubscription`, whose cache effect persists), throws when
none exists, cancels at Stripe (`cancelOk` oracle) and evicts the cache
entry; every thrown error surfaces as `Failed to cancel subscription`. -/
def cancelSubscription (now : Int) (userId : Nat)
    (customerRes : Option String) (listRes : Option StripeFetchedSub)
    (cancelOk : Bool) (st : PayState) : PayState × Except String Unit :=
  match getUserSubscription now userId customerRes listRes st with
  | (st1, .error _) => (st1, .error "Failed to cancel subscription")
  | (st1, .ok none) => (st1, .error "Failed to cancel subscription")
  | (st1, .ok (some subscription)) =>
    match subscription.stripeSubscriptionId with
    | none => (st1, .error "Failed to cancel subscription")
    | some _ =>
      if cancelOk then
        ({ st1 with subscriptions := mapDelete userId st1.subscriptions }, .ok ())
      else (st1, .error "Failed to cancel subscription")

/-- The body of `UpdateSubscriptionRequest`. -/
structure UpdateSubscriptionRequest where
  planId : Option String := none
  cancelAtPeriodEnd : Option Bool := none
deriving Repr, DecidableEq

/-- The final refetch of `PaymentService.updateSubscription`: a second
`getUserSubscription` whose null result is turned into an error. -/
def updateSubscriptionRefetch (now : Int) (userId : Nat)
    (customerRes : Option String) (listRes : Option StripeFetchedSub)
    (st : PayState) : PayState × Except String UserSubscription :=
  match getUserSubscription now userId customerRes listRes st with
  | (st2, .error _) => (st2, .error "Failed to update subscription")
  | (st2, .ok none) => (st2, .error "Failed to update subscription")
  | (st2, .ok (some updated)) => (st2, .ok updated)

/-- `PaymentService.updateSubscription(userId, request)`. Oracles:
`customerRes1`/`listRes1` feed the initial `getUserSubscription`,
`retrieveOk` is the `stripe.subscriptions.retrieve` outcome, `cancelFlagOk`
the cancel-at-period-end push, `itemsNonempty` whether the retrieved
subscription had a first line item, `itemUpdateOk` the price-swap call, and
`customerRes2`/`listRes2` feed the final refetch. Local state is touched
only through the two `getUserSubscription` calls. -/
def updateSubscription (now : Int) (userId : Nat)
    (req : UpdateSubscriptionRequest)
    (customerRes1 : Option String) (listRes1 : Option StripeFetchedSub)
    (retrieveOk : Bool) (cancelFlagOk : Bool)
    (itemsNonempty : Bool) (itemUpdateOk : Bool)
    (customerRes2 : Option String) (listRes2 : Option StripeFetchedSub)
    (st : PayState) : PayState × Except String UserSubscription :=
  match getUserSubscription now userId customerRes1 listRes1 st with
  | (st1, .error _) => (st1, .error "Failed to update subscription")
  | (st1, .ok none) => (st1, .error "Failed to update subscription")
  | (st1, .ok (some subscription)) =>
    match subscription.stripeSubscriptionId with
    | none => updateSubscriptionRefetch now userId customerRes2 listRes2 st1
    | some _ =>
      if !retrieveOk then (st1, .error "Failed to update subscription")
      else if req.cancelAtPeriodEnd.isSome && !cancelFlagOk then
        (st1, .error "Failed to update subscription")
      else
        match req.planId with
        | none => updateSubscriptionRefetch now userId customerRes2 listRes2 st1
        | some pid =>
          if pid != subscription.planId then
            match getPlan pid with
            | none => (st1, .error "Failed to update subscription")
            | some _ =>
              if itemsNonempty && !itemUpdateOk then
                (st1, .error "Failed to update subscription")
              else updateSubscriptionRefetch now userId customerRes2 listRes2 st1
          else updateSubscriptionRefetch now userId customerRes2 listRes2 st1

/-- The fields of the subscription object carried by a Stripe webhook event
that the handlers read. -/
structure StripeWebhookSub where
  id : String
  metaUserId : Option Nat
  status : String
  currentPeriodStart : Int
  currentPeriodEnd : Int
  trialEnd : Option Int
  cancelAtPeriodEnd : Bool
deriving Repr, DecidableEq

/-- The webhook events dispatched by `PaymentService.handleWebhook`. -/
inductive StripeEvent where
  | subscriptionCreated (sub : StripeWebhookSub)
  | subscriptionUpdated (sub : StripeWebhookSub)
  | subscriptionDeleted (sub : StripeWebhookSub)
  | invoicePaymentSucceeded
  | invoicePaymentFailed
  | other (t : String)
deriving Repr, DecidableEq

/-- `PaymentService.handleSubscriptionUpdated`: overwrite the cached entry
for the event's `userId` metadata in place, if one exists; otherwise drop
the event. `trial_end` is copied only when truthy. -/
def handleSubscriptionUpdated (now : Int) (ev : StripeWebhookSub)
    (st : PayState) : PayState :=
  match ev.metaUserId with
  | none => st
  | some userId =>
    match mapGet userId st.subscriptions with
    | none => st
    | some existing =>
      let updated :=
        { existing with
            status := ev.status
            currentPeriodStart := ev.currentPeriodStart * 1000
            currentPeriodEnd := ev.currentPeriodEnd * 1000
            trialEnd := match ev.trialEnd with
              | some t => if t == 0 then existing.trialEnd else some (t * 1000)
              | none => existing.trialEnd
            cancelAtPeriodEnd := ev.cancelAtPeriodEnd
            updatedAt := now }
      { st with subscriptions := mapSet userId updated st.subscriptions }

/-- `PaymentService.handleSubscriptionDeleted`: evict the cache entry keyed
by the event's `userId` metadata. -/
def handleSubscriptionDeleted (ev : StripeWebhookSub) (st : PayState) :
    PayState :=
  match ev.metaUserId with
  | none => st
  | some userId => { st with subscriptions := mapDelete userId st.subscriptions }

/-- `PaymentService.handleWebhook`: dispatch on the event type; the created
and invoice handlers only log. -/
def handleWebhook (now : Int) (ev : StripeEvent) (st : PayState) : PayState :=
  match ev with
  | .subscriptionUpdated s => handleSubscriptionUpdated now s st
  | .subscriptionDeleted s => handleSubscriptionDeleted s st
  | _ => st

/-- A sequential trial-store operation: `createTrial` run against a store
whose RPC aggregates answer consistently with the table (`get_beta_user_count`
and `get_next_beta_user_number` evaluated on the current rows), `endTrial`,
or `cleanupExpiredTrials`. -/
inductive TrialOp where
  | create (now : Int) (userId : Nat) (email : String)
  | endT (userId : Nat)
  | cleanup (now : Int)
deriving Repr, DecidableEq

/-- Apply one sequential trial operation to the store. -/
def applyTrialOp (s : List TrialRow) : TrialOp → List TrialRow
  | .create now uid email =>
    (createTrial (.ok (some (betaUserCountAgg s))) (.ok (some (nextBetaUserNumberAgg s)))
      now uid email s).1
  | .endT uid => endTrial uid s
  | .cleanup now => (cleanupExpiredTrials now s).1

/-- Run a sequence of trial operations left to right. -/
def runTrialOps (ops : List TrialOp) (s : List TrialRow) : List TrialRow :=
  ops.foldl applyTrialOp s

/-- The `betaUserNumber` values recorded on the rows the `create` steps of a
sequence insert, in execution order (a non-beta insert records none). -/
def assignedNumbers (s : List TrialRow) : List TrialOp → List Nat
  | [] => []
  | op :: rest =>
    (match op with
     | .create now uid email =>
       ((createTrial (.ok (some (betaUserCountAgg s)))
          (.ok (some (nextBetaUserNumberAgg s))) now uid email s).2.betaUserNumber).toList
     | _ => []) ++ assignedNumbers (applyTrialOp s op) rest

/-- Combined system operations for the reactivation question: every embedded
operation that can touch the trial table or the caches, except
`createSubscription` itself. -/
inductive SysOp where
  | opCreateTrial (countRpc nextRpc : Except Unit (Option Nat)) (now : Int)
      (userId : Nat) (email : String)
  | opEndTrial (userId : Nat)
  | opCleanup (now : Int)
  | opGetUserSubscription (now : Int) (userId : Nat)
      (customerRes : Option String) (listRes : Option StripeFetchedSub)
  | opUpdateSubscription (now : Int) (userId : Nat)
      (req : UpdateSubscriptionRequest)
      (customerRes1 : Option String) (listRes1 : Option StripeFetchedSub)
      (retrieveOk cancelFlagOk itemsNonempty itemUpdateOk : Bool)
      (customerRes2 : Option String) (listRes2 : Option StripeFetchedSub)
  | opCancelSubscription (now : Int) (userId : Nat)
      (customerRes : Option String) (listRes : Option StripeFetchedSub)
      (cancelOk : Bool)
  | opWebhook (now : Int) (ev : StripeEvent)

/-- Apply one combined system operation (discarding its return value). -/
def applySysOp (st : PayState) : SysOp → PayState
  | .opCreateTrial cr nr now uid email =>
    { st with trials := (createTrial cr nr now uid email st.trials).1 }
  | .opEndTrial uid => { st with trials := endTrial uid st.trials }
  | .opCleanup now => { st with trials := (cleanupExpiredTrials now st.trials).1 }
  | .opGetUserSubscription now uid c l => (getUserSubscription now uid c l st).1
  | .opUpdateSubscription now uid req c1 l1 r cf ine iu c2 l2 =>
    (updateSubscription now uid req c1 l1 r cf ine iu c2 l2 st).1
  | .opCancelSubscription now uid c l ok => (cancelSubscription now uid c l ok st).1
  | .opWebhook now ev => handleWebhook now ev st

/-- Run a sequence of combined system operations left to right. -/
def runSysOps (ops : List SysOp) (st : PayState) : PayState :=
  ops.foldl applySysOp st

set_option maxRecDepth 40000

/-- Whether an `Except` value is a success. -/
def exceptOk {ε α : Type} : Except ε α → Bool
  | .ok _ => true
  | .error _ => false

/-- The empty payment-service state (fresh process, empty trial table). -/
def pay0 : PayState :=
  { trials := [], subscriptions := [], betaUsers := [], betaUserCount := 0 }

/-- A trial table holding 100 active beta trials (users 0 to 99, beta
numbers 1 to 100): the beta quota is exactly full and user 0 holds one of
the grants. -/
def betaFullStore : List TrialRow :=
  (List.range 100).map (fun i =>
    { userId := i, email := "b", trialStartDate := 0, trialEndDate := 1,
      isActive := true, isBetaUser := true, betaUserNumber := some (i + 1) })

/-- 100 signups, then user 0 ends their trial, then one more signup. -/
def c3Ops : List TrialOp :=
  ((List.range 100).map (fun i => TrialOp.create 0 i "b")) ++
    [TrialOp.endT 0, TrialOp.create 0 100 "b"]

/-- An already-deactivated trial row for user 7. -/
def c4InactiveRow : TrialRow :=
  { userId := 7, email := "a", trialStartDate := 0, trialEndDate := 100,
    isActive := false, isBetaUser := false, betaUserNumber := none }

/-- A state whose trial table holds only `c4InactiveRow`. -/
def c4State : PayState :=
  { trials := [c4InactiveRow], subscriptions := [], betaUsers := [],
    betaUserCount := 0 }

/-- An active 14-day trial row for user 1 starting at epoch 0. -/
def c6ActiveRow : TrialRow :=
  { userId := 1, email := "a", trialStartDate := 0,
    trialEndDate := 14 * msPerDay, isActive := true, isBetaUser := false,
    betaUserNumber := none }

/-- The same row already deactivated (the user subscribed before expiry). -/
def c6InactiveRow : TrialRow :=
  { userId := 1, email := "a", trialStartDate := 0,
    trialEndDate := 14 * msPerDay, isActive := false, isBetaUser := false,
    betaUserNumber := none }

/-- The status payload expected at day 13 of the active trial. -/
def c6Status13 : TrialStatus :=
  { isInTrial := true, trialDaysRemaining := 1, trialEndDate := 14 * msPerDay,
    isBetaUser := false, betaUserNumber := none, shouldShowPayment := false }

/-- The status payload expected at day 15 of the active trial. -/
def c6Status15 : TrialStatus :=
  { isInTrial := false, trialDaysRemaining := 0, trialEndDate := 14 * msPerDay,
    isBetaUser := false, betaUserNumber := none, shouldShowPayment := true }

/-- An active trial row for the cleanup example. -/
def c8Row (uid : Nat) (endDate : Int) (active : Bool) : TrialRow :=
  { userId := uid, email := "a", trialStartDate := 0, trialEndDate := endDate,
    isActive := active, isBetaUser := false, betaUserNumber := none }

/-- Three active past-expiry trials and two active future-expiry trials,
relative to `now = 10`. -/
def c8Store : List TrialRow :=
  [c8Row 1 3 true, c8Row 2 5 true, c8Row 3 9 true, c8Row 4 20 true,
   c8Row 5 30 true]

/-- An active trial row for user 2, used to exercise `endTrial`. -/
def c7Row : TrialRow :=
  { userId := 2, email := "a", trialStartDate := 0, trialEndDate := 100,
    isActive := true, isBetaUser := true, betaUserNumber := some 3 }

/-- `c7Row` after deactivation. -/
def c7Ended : TrialRow :=
  { userId := 2, email := "a", trialStartDate := 0, trialEndDate := 100,
    isActive := false, isBetaUser := true, betaUserNumber := some 3 }

/-- An active trial row for user 7. -/
def c5Row : TrialRow :=
  { userId := 7, email := "a", trialStartDate := 0, trialEndDate := 100,
    isActive := true, isBetaUser := false, betaUserNumber := none }

/-- A state whose trial table holds only the active `c5Row`. -/
def c5State : PayState :=
  { trials := [c5Row], subscriptions := [], betaUsers := [],
    betaUserCount := 0 }

/-- The subscription projection produced by the concrete successful
`createSubscription` run used as a witness. -/
def c9Sub : UserSubscription :=
  { id := "s", userId := 7, stripeCustomerId := "c",
    stripeSubscriptionId := some "s", planId := "beta-monthly",
    status := "active", currentPeriodStart := 1000, currentPeriodEnd := 2000,
    trialEnd := none, cancelAtPeriodEnd := false, createdAt := 0,
    updatedAt := 0 }

/-- The row `createSubscription`'s trial-table update produces from
`c4InactiveRow` at `now = 0`. -/
def c4ReactivatedRow : TrialRow :=
  { userId := 7, email := "a", trialStartDate := 0,
    trialEndDate := 365 * msPerDay, isActive := true, isBetaUser := false,
    betaUserNumber := none }

/-! ### Helper lemmas -/

/-- Every row of the user targeted by `endTrial` ends up inactive. -/
theorem endTrial_user_inactive (userId : Nat) (s : List TrialRow) :
    ∀ r ∈ endTrial userId s, r.userId = userId → r.isActive = false := by
  intro r hr h
  simp only [endTrial, List.mem_map] at hr
  obtain ⟨a, _, rfl⟩ := hr
  by_cases hb : (a.userId == userId) = true
  · simp [hb]
  · simp only [if_neg hb] at h ⊢
    exact absurd (beq_iff_eq.mpr h) hb

/-- `singleRow` on a filter known to produce exactly one row. -/
theorem singleRow_of_filter_eq (p : TrialRow → Bool) (s : List TrialRow)
    (t : TrialRow) (hf : s.filter p = [t]) : singleRow p s = some t := by
  unfold singleRow
  rw [hf]

/-! ### C10 -/

/-- C10: when the beta-count RPC fails `getBetaUserCount` returns 0 and when
the next-number RPC fails `getNextBetaUserNumber` returns 1; consequently
`createTrial` under both failures still inserts its row, marking it
`isBetaUser = true` with `betaUserNumber = 1`, whatever the store holds. -/
theorem c10_rpc_failure_defaults (now : Int) (userId : Nat) (email : String)
    (s : List TrialRow) :
    getBetaUserCount (.error ()) = 0 ∧
    getNextBetaUserNumber (.error ()) = 1 ∧
    (createTrial (.error ()) (.error ()) now userId email s).2.isBetaUser = true ∧
    (createTrial (.error ()) (.error ()) now userId email s).2.betaUserNumber = some 1 ∧
    (createTrial (.error ()) (.error ()) now userId email s).1 =
      s ++ [(createTrial (.error ()) (.error ()) now userId email s).2] :=
  ⟨rfl, rfl, rfl, rfl, rfl⟩

/-! ### C7 -/

/-- C7: `endTrial` is idempotent — running it twice from any store equals
running it once — and after a run every row of the user (already inactive or
not) is inactive. -/
theorem c7_endTrial_idempotent (userId : Nat) (s : List TrialRow) :
    endTrial userId (endTrial userId s) = endTrial userId s ∧
    ∀ r ∈ endTrial userId s, r.userId = userId → r.isActive = false := by
  refine ⟨?_, endTrial_user_inactive userId s⟩
  unfold endTrial
  rw [List.map_map]
  apply List.map_congr_left
  intro a _
  by_cases hb : (a.userId == userId) = true
  · simp [Function.comp, hb]
  · simp [Function.comp, hb]

/-- C7 witness: on a concrete store the deactivated row is reached and the
theorem instantiates. -/
theorem c7_endTrial_idempotent_witness :
    c7Ended ∈ endTrial 2 [c7Row] ∧ c7Ended.userId = 2 ∧
    c7Ended.isActive = false :=
  ⟨by decide, by decide,
   (c7_endTrial_idempotent 2 [c7Row]).2 c7Ended (by decide) (by decide)⟩

/-! ### C2 -/

/-- C2: with the quota aggregate at exactly 100 and user 0 holding one of
the 100 active beta trials, `canGetBetaPricing` returns `false` — the
early `count >= MAX_BETA_USERS` guard fires before the `isBetaUser` check,
so an existing beta holder is denied beta pricing once the quota is full,
contradicting the specified (and internally intended) behaviour. -/
theorem c2_beta_pricing_quota_full :
    betaUserCountAgg betaFullStore = 100 ∧
    isBetaUser 0 betaFullStore = true ∧
    canGetBetaPricing (Except.ok (some (betaUserCountAgg betaFullStore))) 0
      betaFullStore = false := by
  decide

/-! ### C6 -/

/-- C6 counterexample: an unexpired but deactivated trial record is filtered
out by the active-only query, so `getTrialStatus` returns `none` — it does
not report a status with `isInTrial = false` as the claim states. -/
theorem c6_counterexample :
    c6InactiveRow.isActive = false ∧
    (13 * msPerDay : Int) < c6InactiveRow.trialEndDate ∧
    getTrialStatus (13 * msPerDay) 1 [c6InactiveRow] = none := by
  decide

/-- C6 (amended): for a user whose active trial row is found (the query
filters on `is_active = true` and yields exactly one row), the returned
status satisfies `isInTrial = isActive AND now < trialEndDate`,
`trialDaysRemaining = ceil((trialEndDate - now)/1 day)` clamped to 0 when
not in trial, and `shouldShowPayment = !isInTrial`; at day 13 of a 14-day
active trial the status is `(true, 1, false)` and at day 15 it is
`(false, 0, true)`; an unexpired row with `isActive = false` yields `none`
(not found) rather than a status. -/
theorem c6_trial_status :
    (∀ (now : Int) (userId : Nat) (s : List TrialRow) (t : TrialRow)
        (st : TrialStatus),
        s.filter (fun r => r.userId == userId && r.isActive) = [t] →
        getTrialStatus now userId s = some st →
        st.isInTrial = (t.isActive && decide (now < t.trialEndDate)) ∧
        st.trialDaysRemaining =
          (if st.isInTrial then ceilDivDay (t.trialEndDate - now) else 0) ∧
        st.shouldShowPayment = (!st.isInTrial) ∧
        st.trialEndDate = t.trialEndDate) ∧
    getTrialStatus (13 * msPerDay) 1 [c6ActiveRow] = some c6Status13 ∧
    getTrialStatus (15 * msPerDay) 1 [c6ActiveRow] = some c6Status15 ∧
    getTrialStatus (13 * msPerDay) 1 [c6InactiveRow] = none := by
  refine ⟨?_, by decide, by decide, by decide⟩
  intro now userId s t st hf hst
  have h1 := singleRow_of_filter_eq _ s t hf
  unfold getTrialStatus at hst
  rw [h1] at hst
  have h2 := Option.some.inj hst
  subst h2
  exact ⟨rfl, rfl, rfl, rfl⟩

/-- C6 witness: the static part of the status theorem instantiated at day 13
of the concrete active trial. -/
theorem c6_trial_status_witness :
    ([c6ActiveRow].filter (fun r => r.userId == 1 && r.isActive) =
      [c6ActiveRow]) ∧
    getTrialStatus (13 * msPerDay) 1 [c6ActiveRow] = some c6Status13 ∧
    (c6Status13.isInTrial =
        (c6ActiveRow.isActive &&
          decide ((13 * msPerDay : Int) < c6ActiveRow.trialEndDate)) ∧
      c6Status13.trialDaysRemaining =
        (if c6Status13.isInTrial then
          ceilDivDay (c6ActiveRow.trialEndDate - 13 * msPerDay) else 0) ∧
      c6Status13.shouldShowPayment = (!c6Status13.isInTrial) ∧
      c6Status13.trialEndDate = c6ActiveRow.trialEndDate) :=
  ⟨by decide, by decide,
   c6_trial_status.1 (13 * msPerDay) 1 [c6ActiveRow] c6ActiveRow c6Status13
     (by decide) (by decide)⟩

/-! ### C8 -/

/-- C8: `cleanupExpiredTrials` keeps the table's length, flips exactly the
rows that are active with `trialEndDate < now` to inactive (all other fields
untouched), leaves every other row completely unchanged, and returns the
number of affected rows; on the concrete 3-expired/2-future store it returns
3 and only those three rows become inactive. -/
theorem c8_cleanup_frame :
    (∀ (now : Int) (s : List TrialRow),
        (cleanupExpiredTrials now s).1.length = s.length ∧
        (∀ (i : Nat) (r : TrialRow), s[i]? = some r →
            (r.isActive && decide (r.trialEndDate < now)) = true →
            (cleanupExpiredTrials now s).1[i]? =
              some { r with isActive := false }) ∧
        (∀ (i : Nat) (r : TrialRow), s[i]? = some r →
            (r.isActive && decide (r.trialEndDate < now)) = false →
            (cleanupExpiredTrials now s).1[i]? = some r) ∧
        (cleanupExpiredTrials now s).2 =
          s.countP (fun r => r.isActive && decide (r.trialEndDate < now))) ∧
    (cleanupExpiredTrials 10 c8Store).2 = 3 ∧
    (cleanupExpiredTrials 10 c8Store).1.map (fun r => r.isActive) =
      [false, false, false, true, true] := by
  refine ⟨?_, by decide, by decide⟩
  intro now s
  refine ⟨by simp [cleanupExpiredTrials], ?_, ?_, ?_⟩
  · intro i r hi hr
    rw [Bool.and_comm] at hr
    simp only [cleanupExpiredTrials, List.getElem?_map, hi, Option.map_some']
    rw [if_pos hr]
  · intro i r hi hr
    rw [Bool.and_comm] at hr
    simp only [cleanupExpiredTrials, List.getElem?_map, hi, Option.map_some']
    simp [hr]
  · have hpq : (fun r : TrialRow => r.trialEndDate < now && r.isActive) =
        (fun r : TrialRow => r.isActive && decide (r.trialEndDate < now)) := by
      funext r
      exact Bool.and_comm _ _
    simp only [cleanupExpiredTrials]
    rw [List.countP_eq_length_filter, hpq]

/-- C8 witness: the first expired row of the concrete store is deactivated. -/
theorem c8_cleanup_frame_witness :
    c8Store[0]? = some (c8Row 1 3 true) ∧
    ((c8Row 1 3 true).isActive &&
      decide ((c8Row 1 3 true).trialEndDate < 10)) = true ∧
    (cleanupExpiredTrials 10 c8Store).1[0]? =
      some { c8Row 1 3 true with isActive := false } :=
  ⟨by decide, by decide,
   (c8_cleanup_frame.1 10 c8Store).2.1 0 (c8Row 1 3 true) (by decide)
     (by decide)⟩

/-! ### C1 -/

/-- Looking up an entry of an association list right after setting it. -/
theorem mapGet_mapSet {α : Type} (k : Nat) (v : α) (m : List (Nat × α)) :
    mapGet k (mapSet k v m) = some v := by
  unfold mapGet mapSet
  rw [List.find?_cons_of_pos _ (by simp)]
  rfl

/-- C1: for every `createSubscription` call whose requested plan resolves,
the plan applied in the Stripe request (price id and metadata) and in the
returned projection is `determineFinalPlan plan eligibility`; that final plan
is the regular plan of the same interval when a beta plan was requested
without eligibility, the beta plan of the same interval when a regular plan
was requested with eligibility, and the requested plan otherwise. -/
theorem c1_plan_correction (now : Int) (countRpc : Except Unit (Option Nat))
    (customerRes : Except Unit String) (endTrialOk : Bool)
    (stripeRes : Except Unit StripeSubObject) (trialUpdateOk : Bool)
    (userId : Nat) (email requestPlanId : String) (st : PayState)
    (plan : SubscriptionPlan) (hplan : getPlan requestPlanId = some plan)
    (e : Bool) (he : e = canGetBetaPricing countRpc userId st.trials)
    (fp : SubscriptionPlan) (hfp : fp = determineFinalPlan plan e) :
    (∀ req : StripeSubRequest,
        (createSubscription now countRpc customerRes endTrialOk stripeRes
            trialUpdateOk userId email requestPlanId st).stripeRequest =
          some req →
        req.priceId = fp.stripePriceId ∧ req.metaPlanId = fp.id ∧
        req.metaIsBetaUser = (if fp.isBeta then "true" else "false")) ∧
    (∀ sub : UserSubscription,
        (createSubscription now countRpc customerRes endTrialOk stripeRes
            trialUpdateOk userId email requestPlanId st).result =
          Except.ok sub →
        sub.planId = fp.id) ∧
    (plan.isBeta = true → e = false →
      fp = (if plan.interval == "month" then regularMonthly else regularYearly)) ∧
    (plan.isBeta = false → e = true →
      fp = (if plan.interval == "month" then betaMonthly else betaYearly)) ∧
    (plan.isBeta = e → fp = plan) ∧
    (requestPlanId = "beta-monthly" → e = false → fp.id = "regular-monthly") ∧
    (requestPlanId = "beta-yearly" → e = false → fp.id = "regular-yearly") ∧
    (requestPlanId = "regular-monthly" → e = true → fp.id = "beta-monthly") ∧
    (requestPlanId = "regular-yearly" → e = true → fp.id = "beta-yearly") := by
  subst he
  refine ⟨?_, ?_, ?_, ?_, ?_, ?_, ?_, ?_, ?_⟩
  · intro req hreq
    cases customerRes with
    | error err => simp [createSubscription, hplan] at hreq
    | ok cid =>
      cases endTrialOk with
      | false => simp [createSubscription, hplan] at hreq
      | true =>
        cases stripeRes with
        | error err =>
          simp [createSubscription, hplan] at hreq
          subst hfp
          simp [← hreq]
        | ok so =>
          simp [createSubscription, hplan] at hreq
          subst hfp
          simp [← hreq]
  · intro sub hsub
    cases customerRes with
    | error err => simp [createSubscription, hplan] at hsub
    | ok cid =>
      cases endTrialOk with
      | false => simp [createSubscription, hplan] at hsub
      | true =>
        cases stripeRes with
        | error err => simp [createSubscription, hplan] at hsub
        | ok so =>
          simp [createSubscription, hplan] at hsub
          subst hfp
          simp [← hsub]
  · intro hb he2
    subst hfp
    simp [determineFinalPlan, hb, he2]
    split <;> rfl
  · intro hb he2
    subst hfp
    simp [determineFinalPlan, hb, he2]
    split <;> rfl
  · intro hbe
    subst hfp
    cases hb : plan.isBeta <;> rw [hb] at hbe <;>
      simp [determineFinalPlan, hb, ← hbe]
  · intro hr he2
    subst hr
    have h0 : plan = betaMonthly := Option.some.inj (rfl.trans hplan.symm)
    subst h0 hfp
    rw [he2]
    decide
  · intro hr he2
    subst hr
    have h0 : plan = betaYearly := Option.some.inj (rfl.trans hplan.symm)
    subst h0 hfp
    rw [he2]
    decide
  · intro hr he2
    subst hr
    have h0 : plan = regularMonthly := Option.some.inj (rfl.trans hplan.symm)
    subst h0 hfp
    rw [he2]
    decide
  · intro hr he2
    subst hr
    have h0 : plan = regularYearly := Option.some.inj (rfl.trans hplan.symm)
    subst h0 hfp
    rw [he2]
    decide

/-- C1 witness: an eligible user requesting `regular-monthly` gets
`beta-monthly` applied. -/
theorem c1_plan_correction_witness :
    getPlan "regular-monthly" = some regularMonthly ∧
    canGetBetaPricing (.ok (some 0)) 7 pay0.trials = true ∧
    (determineFinalPlan regularMonthly
        (canGetBetaPricing (.ok (some 0)) 7 pay0.trials)).id = "beta-monthly" :=
  ⟨by decide, by decide,
   (c1_plan_correction 0 (.ok (some 0)) (.ok "c") true
       (.ok { id := "s", currentPeriodStart := 1, currentPeriodEnd := 2 }) false
       7 "a" "regular-monthly" pay0 regularMonthly (by decide) _ rfl _
       rfl).2.2.2.2.2.2.2.1 rfl (by decide)⟩

/-! ### C5 -/

/-- C5: when the requested plan resolves, the customer is resolved, the
trial-ending update succeeds, and then the Stripe subscription-creation call
fails, `createSubscription` throws `Failed to create subscription`, the
trial table is left exactly as `endTrial` rewrote it (every row of the user
inactive — the deactivation is not rolled back), no subscription is stored
in the cache, and the Stripe request had actually been issued. -/
theorem c5_trial_ended_on_stripe_failure (now : Int)
    (countRpc : Except Unit (Option Nat)) (cid : String) (trialUpdateOk : Bool)
    (userId : Nat) (email requestPlanId : String) (st : PayState)
    (plan : SubscriptionPlan) (hplan : getPlan requestPlanId = some plan)
    (out : CreateSubOutcome)
    (hout : out = createSubscription now countRpc (.ok cid) true (.error ())
      trialUpdateOk userId email requestPlanId st) :
    out.result = Except.error "Failed to create subscription" ∧
    out.state.trials = endTrial userId st.trials ∧
    (∀ r ∈ out.state.trials, r.userId = userId → r.isActive = false) ∧
    out.state.subscriptions = st.subscriptions ∧
    out.stripeRequest.isSome = true := by
  subst hout
  refine ⟨by simp [createSubscription, hplan], by simp [createSubscription, hplan],
    ?_, by simp [createSubscription, hplan], by simp [createSubscription, hplan]⟩
  simpa [createSubscription, hplan] using endTrial_user_inactive userId st.trials

/-- C5 witness: a concrete failing run leaves user 7's trial inactive and
the cache empty. -/
theorem c5_trial_ended_on_stripe_failure_witness :
    getPlan "beta-monthly" = some betaMonthly ∧
    (createSubscription 0 (.ok (some 0)) (.ok "c") true (.error ()) true 7 "a"
        "beta-monthly" c5State).result =
      Except.error "Failed to create subscription" ∧
    (createSubscription 0 (.ok (some 0)) (.ok "c") true (.error ()) true 7 "a"
        "beta-monthly" c5State).state.trials = endTrial 7 c5State.trials :=
  ⟨by decide,
   (c5_trial_ended_on_stripe_failure 0 (.ok (some 0)) "c" true 7 "a"
       "beta-monthly" c5State betaMonthly (by decide) _ rfl).1,
   (c5_trial_ended_on_stripe_failure 0 (.ok (some 0)) "c" true 7 "a"
       "beta-monthly" c5State betaMonthly (by decide) _ rfl).2.1⟩

/-! ### C9 -/

/-- C9: a successful `createSubscription` immediately followed by
`getUserSubscription` for the same user hits the in-process cache: the
result is exactly the projection the create call returned, whatever the
Stripe-side oracles would say (the external platform is not consulted and
the state does not change), with status `active` and the corrected plan id. -/
theorem c9_round_trip (now : Int) (countRpc : Except Unit (Option Nat))
    (customerRes : Except Unit String) (endTrialOk : Bool)
    (stripeRes : Except Unit StripeSubObject) (trialUpdateOk : Bool)
    (userId : Nat) (email requestPlanId : String) (st : PayState)
    (sub : UserSubscription)
    (hok : (createSubscription now countRpc customerRes endTrialOk stripeRes
        trialUpdateOk userId email requestPlanId st).result = Except.ok sub) :
    (∀ (gnow : Int) (customerRes2 : Option String)
        (listRes2 : Option StripeFetchedSub),
        getUserSubscription gnow userId customerRes2 listRes2
            (createSubscription now countRpc customerRes endTrialOk stripeRes
              trialUpdateOk userId email requestPlanId st).state =
          ((createSubscription now countRpc customerRes endTrialOk stripeRes
              trialUpdateOk userId email requestPlanId st).state,
            Except.ok (some sub))) ∧
    sub.status = "active" ∧
    (∀ plan : SubscriptionPlan, getPlan requestPlanId = some plan →
        sub.planId =
          (determineFinalPlan plan
            (canGetBetaPricing countRpc userId st.trials)).id) := by
  cases hplan : getPlan requestPlanId with
  | none => simp [createSubscription, hplan] at hok
  | some plan =>
    cases customerRes with
    | error err => simp [createSubscription, hplan] at hok
    | ok cid =>
      cases endTrialOk with
      | false => simp [createSubscription, hplan] at hok
      | true =>
        cases stripeRes with
        | error err => simp [createSubscription, hplan] at hok
        | ok so =>
          simp [createSubscription, hplan] at hok ⊢
          subst hok
          refine ⟨?_, rfl, ?_⟩
          · intro gnow customerRes2 listRes2
            cases trialUpdateOk <;> simp [getUserSubscription, mapGet_mapSet]
          · rfl

/-- C9 witness: a concrete successful creation for user 7 followed by a
cache-hit read, with Stripe-side oracles answering nothing. -/
theorem c9_round_trip_witness :
    (createSubscription 0 (.ok (some 0)) (.ok "c") true
        (.ok { id := "s", currentPeriodStart := 1, currentPeriodEnd := 2 })
        false 7 "a" "beta-monthly" pay0).result = Except.ok c9Sub ∧
    getUserSubscription 99 7 none none
        (createSubscription 0 (.ok (some 0)) (.ok "c") true
          (.ok { id := "s", currentPeriodStart := 1, currentPeriodEnd := 2 })
          false 7 "a" "beta-monthly" pay0).state =
      ((createSubscription 0 (.ok (some 0)) (.ok "c") true
          (.ok { id := "s", currentPeriodStart := 1, currentPeriodEnd := 2 })
          false 7 "a" "beta-monthly" pay0).state, Except.ok (some c9Sub)) ∧
    c9Sub.status = "active" :=
  ⟨rfl,
   (c9_round_trip 0 (.ok (some 0)) (.ok "c") true
       (.ok { id := "s", currentPeriodStart := 1, currentPeriodEnd := 2 })
       false 7 "a" "beta-monthly" pay0 c9Sub rfl).1 99 none none,
   rfl⟩

/-! ### C4 -/

/-- `getUserSubscription` never touches the trial table. -/
theorem getUserSubscription_trials (now : Int) (userId : Nat)
    (c : Option String) (l : Option StripeFetchedSub) (st : PayState) :
    ((getUserSubscription now userId c l st).1).trials = st.trials := by
  unfold getUserSubscription
  (repeat' split) <;> rfl

/-- The refetch step of `updateSubscription` never touches the trial table. -/
theorem updateSubscriptionRefetch_trials (now : Int) (userId : Nat)
    (c : Option String) (l : Option StripeFetchedSub) (st : PayState) :
    ((updateSubscriptionRefetch now userId c l st).1).trials = st.trials := by
  rcases heq : getUserSubscription now userId c l st with ⟨st2, r⟩
  have h2 : st2.trials = st.trials := by
    rw [← getUserSubscription_trials now userId c l st, heq]
  unfold updateSubscriptionRefetch
  rw [heq]
  cases r with
  | error e => exact h2
  | ok o =>
    cases o with
    | none => exact h2
    | some u => exact h2

/-- `updateSubscription` never touches the trial table. -/
theorem updateSubscription_trials (now : Int) (userId : Nat)
    (req : UpdateSubscriptionRequest) (c1 : Option String)
    (l1 : Option StripeFetchedSub) (retrieveOk cancelFlagOk : Bool)
    (itemsNonempty itemUpdateOk : Bool) (c2 : Option String)
    (l2 : Option StripeFetchedSub) (st : PayState) :
    ((updateSubscription now userId req c1 l1 retrieveOk cancelFlagOk
        itemsNonempty itemUpdateOk c2 l2 st).1).trials = st.trials := by
  rcases heq : getUserSubscription now userId c1 l1 st with ⟨st1, r⟩
  have h1 : st1.trials = st.trials := by
    rw [← getUserSubscription_trials now userId c1 l1 st, heq]
  have h2 : ((updateSubscriptionRefetch now userId c2 l2 st1).1).trials =
      st.trials := by
    rw [updateSubscriptionRefetch_trials]
    exact h1
  unfold updateSubscription
  rw [heq]
  (repeat' split) <;> simp_all [updateSubscriptionRefetch_trials]

/-- `cancelSubscription` never touches the trial table. -/
theorem cancelSubscription_trials (now : Int) (userId : Nat)
    (c : Option String) (l : Option StripeFetchedSub) (cancelOk : Bool)
    (st : PayState) :
    ((cancelSubscription now userId c l cancelOk st).1).trials = st.trials := by
  rcases heq : getUserSubscription now userId c l st with ⟨st1, r⟩
  have h1 : st1.trials = st.trials := by
    rw [← getUserSubscription_trials now userId c l st, heq]
  unfold cancelSubscription
  rw [heq]
  (repeat' split) <;> simp_all

/-- Webhook handling never touches the trial table. -/
theorem handleWebhook_trials (now : Int) (ev : StripeEvent) (st : PayState) :
    (handleWebhook now ev st).trials = st.trials := by
  cases ev with
  | subscriptionUpdated s =>
    unfold handleWebhook handleSubscriptionUpdated
    (repeat' split) <;> first | rfl | simp_all
  | subscriptionDeleted s =>
    unfold handleWebhook handleSubscriptionDeleted
    (repeat' split) <;> first | rfl | simp_all
  | subscriptionCreated s => rfl
  | invoicePaymentSucceeded => rfl
  | invoicePaymentFailed => rfl
  | other t => rfl

/-- A map whose function preserves inactivity keeps an inactive row
inactive at its position. -/
theorem getElem?_map_inactive (f : TrialRow → TrialRow)
    (hf : ∀ a : TrialRow, a.isActive = false → (f a).isActive = false)
    (s : List TrialRow) (i : Nat) (r : TrialRow)
    (h1 : s[i]? = some r) (h2 : r.isActive = false) :
    ∃ q : TrialRow, (s.map f)[i]? = some q ∧ q.isActive = false := by
  refine ⟨f r, ?_, hf r h2⟩
  rw [List.getElem?_map, h1]
  rfl

/-- The `createTrial` insert appends the produced row to the table. -/
theorem createTrial_fst (countRpc nextRpc : Except Unit (Option Nat))
    (now : Int) (userId : Nat) (email : String) (s : List TrialRow) :
    (createTrial countRpc nextRpc now userId email s).1 =
      s ++ [(createTrial countRpc nextRpc now userId email s).2] := rfl

/-- One combined operation keeps an inactive trial row inactive at its
position. -/
theorem applySysOp_inactive_step (op : SysOp) (st : PayState) (i : Nat)
    (r : TrialRow) (h1 : st.trials[i]? = some r) (h2 : r.isActive = false) :
    ∃ q : TrialRow, (applySysOp st op).trials[i]? = some q ∧
      q.isActive = false := by
  cases op with
  | opCreateTrial cr nr now uid email =>
    refine ⟨r, ?_, h2⟩
    have hlt : i < st.trials.length := by
      rw [List.getElem?_eq_some] at h1
      exact h1.1
    show ((createTrial cr nr now uid email st.trials).1)[i]? = some r
    rw [createTrial_fst, List.getElem?_append_left hlt]
    exact h1
  | opEndTrial uid =>
    show ∃ q : TrialRow, (endTrial uid st.trials)[i]? = some q ∧
      q.isActive = false
    refine getElem?_map_inactive _ ?_ st.trials i r h1 h2
    intro a ha
    by_cases hb : (a.userId == uid) = true
    · rw [if_pos hb]
    · rw [if_neg hb]
      exact ha
  | opCleanup now =>
    show ∃ q : TrialRow, ((cleanupExpiredTrials now st.trials).1)[i]? = some q ∧
      q.isActive = false
    refine getElem?_map_inactive _ ?_ st.trials i r h1 h2
    intro a ha
    by_cases hb : (decide (a.trialEndDate < now) && a.isActive) = true
    · rw [if_pos hb]
    · rw [if_neg hb]
      exact ha
  | opGetUserSubscription now uid c l =>
    refine ⟨r, ?_, h2⟩
    show ((getUserSubscription now uid c l st).1).trials[i]? = some r
    rw [getUserSubscription_trials]
    exact h1
  | opUpdateSubscription now uid req c1 l1 ro cf ine iu c2 l2 =>
    refine ⟨r, ?_, h2⟩
    show ((updateSubscription now uid req c1 l1 ro cf ine iu c2 l2 st).1).trials[i]? =
      some r
    rw [updateSubscription_trials]
    exact h1
  | opCancelSubscription now uid c l ok =>
    refine ⟨r, ?_, h2⟩
    show ((cancelSubscription now uid c l ok st).1).trials[i]? = some r
    rw [cancelSubscription_trials]
    exact h1
  | opWebhook now ev =>
    refine ⟨r, ?_, h2⟩
    show (handleWebhook now ev st).trials[i]? = some r
    rw [handleWebhook_trials]
    exact h1

/-- C4 (amended): once a trial row is inactive, no sequence of the embedded
operations other than `createSubscription` — trial creation, trial ending,
expiry sweeping, subscription reads, subscription updates, cancellation,
webhook handling — ever sets it back to `isActive = true`;
`createSubscription` itself is the exception (see the counterexample). -/
theorem c4_no_reactivation (ops : List SysOp) (st : PayState) (i : Nat)
    (r q : TrialRow) (h1 : st.trials[i]? = some r) (h2 : r.isActive = false)
    (h3 : (runSysOps ops st).trials[i]? = some q) : q.isActive = false := by
  induction ops generalizing st r with
  | nil =>
    simp only [runSysOps, List.foldl_nil] at h3
    rw [h1] at h3
    cases Option.some.inj h3
    exact h2
  | cons op rest ih =>
    obtain ⟨m, hm1, hm2⟩ := applySysOp_inactive_step op st i r h1 h2
    refine ih (applySysOp st op) m hm1 hm2 ?_
    simpa only [runSysOps, List.foldl_cons] using h3

/-- C4 counterexample: `createSubscription` does reactivate — starting from
a deactivated trial row for user 7, a successful run rewrites the row with
a one-year window and `isActive = true`. -/
theorem c4_counterexample :
    c4InactiveRow.isActive = false ∧
    exceptOk (createSubscription 0 (.ok (some 0)) (.ok "c") true
        (.ok { id := "s", currentPeriodStart := 1, currentPeriodEnd := 2 })
        true 7 "a" "regular-monthly" c4State).result = true ∧
    (createSubscription 0 (.ok (some 0)) (.ok "c") true
        (.ok { id := "s", currentPeriodStart := 1, currentPeriodEnd := 2 })
        true 7 "a" "regular-monthly" c4State).state.trials =
      [c4ReactivatedRow] := by
  refine ⟨rfl, rfl, by decide⟩

/-- C4 witness: the amended theorem instantiated on a concrete inactive row
surviving an `endTrial` call. -/
theorem c4_no_reactivation_witness :
    c4State.trials[0]? = some c4InactiveRow ∧
    c4InactiveRow.isActive = false ∧
    (runSysOps [SysOp.opEndTrial 7] c4State).trials[0]? =
      some c4InactiveRow ∧
    c4InactiveRow.isActive = false :=
  ⟨by decide, by decide, by decide,
   c4_no_reactivation [SysOp.opEndTrial 7] c4State 0 c4InactiveRow
     c4InactiveRow (by decide) (by decide) (by decide)⟩

/-! ### C3 -/

/-- JavaScript `x || 0` on a present number is the number itself. -/
theorem jsOrNat_some_zero_right (c : Nat) : jsOrNat (some c) 0 = c := by
  cases c <;> rfl

/-- JavaScript `x || 1` on a present successor is the successor itself. -/
theorem jsOrNat_some_succ (m d : Nat) : jsOrNat (some (m + 1)) d = m + 1 := rfl

/-- The `betaUserNumber || null` guard does not fire on a successor. -/
theorem matchSome_succ (m : Nat) :
    (match some (m + 1) with
     | some 0 => (none : Option Nat)
     | v => v) = some (m + 1) := rfl

/-- A `create` step against consistent aggregates appends one fully
determined row. -/
theorem applyTrialOp_create_eq (s : List TrialRow) (now : Int) (uid : Nat)
    (email : String) :
    applyTrialOp s (.create now uid email) =
      s ++ [{ userId := uid, email := email, trialStartDate := now,
              trialEndDate := now + (TRIAL_DURATION_DAYS : Int) * msPerDay,
              isActive := true,
              isBetaUser := decide (betaUserCountAgg s < MAX_BETA_USERS),
              betaUserNumber :=
                if betaUserCountAgg s < MAX_BETA_USERS then
                  some (nextBetaUserNumberAgg s)
                else none }] := by
  by_cases hc : betaUserCountAgg s < MAX_BETA_USERS <;>
    simp [applyTrialOp, createTrial, getBetaUserCount, getNextBetaUserNumber,
      jsOrNat_some_zero_right, jsOrNat_some_succ, matchSome_succ,
      nextBetaUserNumberAgg, hc]

/-- The row a `create` step returns carries the next aggregate number
exactly when the quota was open. -/
theorem createTrial_agg_row (s : List TrialRow) (now : Int) (uid : Nat)
    (email : String) :
    (createTrial (.ok (some (betaUserCountAgg s)))
        (.ok (some (nextBetaUserNumberAgg s))) now uid email s).2.betaUserNumber =
      (if betaUserCountAgg s < MAX_BETA_USERS then
        some (nextBetaUserNumberAgg s)
      else none) := by
  by_cases hc : betaUserCountAgg s < MAX_BETA_USERS <;>
    simp [createTrial, getBetaUserCount, getNextBetaUserNumber,
      jsOrNat_some_zero_right, jsOrNat_some_succ, matchSome_succ,
      nextBetaUserNumberAgg, hc]

/-- Appending one row shifts the active-beta count by 0 or 1. -/
theorem betaUserCountAgg_append (s : List TrialRow) (r : TrialRow) :
    betaUserCountAgg (s ++ [r]) =
      betaUserCountAgg s + (if r.isBetaUser && r.isActive then 1 else 0) := by
  simp only [betaUserCountAgg, List.filter_append, List.length_append,
    List.filter_cons, List.filter_nil]
  congr 1
  by_cases h : (r.isBetaUser && r.isActive) = true
  · rw [if_pos h, if_pos h]
    rfl
  · rw [if_neg h, if_neg h]
    rfl

/-- A rewrite that can only turn rows off never raises the active-beta
count. -/
theorem betaUserCountAgg_map_le (f : TrialRow → TrialRow)
    (hf : ∀ a : TrialRow, ((f a).isBetaUser && (f a).isActive) = true →
      (a.isBetaUser && a.isActive) = true) (s : List TrialRow) :
    betaUserCountAgg (s.map f) ≤ betaUserCountAgg s := by
  induction s with
  | nil => exact Nat.le_refl _
  | cons a t ih =>
    simp only [betaUserCountAgg, List.map_cons, List.filter_cons] at ih ⊢
    by_cases h : ((f a).isBetaUser && (f a).isActive) = true
    · rw [if_pos h, if_pos (hf a h)]
      simp only [List.length_cons]
      exact Nat.succ_le_succ ih
    · rw [if_neg h]
      by_cases h2 : (a.isBetaUser && a.isActive) = true
      · rw [if_pos h2]
        simp only [List.length_cons]
        exact Nat.le_succ_of_le ih
      · rw [if_neg h2]
        exact ih

/-- `endTrial` never raises the active-beta count. -/
theorem endTrial_count_le (uid : Nat) (s : List TrialRow) :
    betaUserCountAgg (endTrial uid s) ≤ betaUserCountAgg s := by
  refine betaUserCountAgg_map_le _ ?_ s
  intro a h
  by_cases hb : (a.userId == uid) = true
  · rw [if_pos hb] at h
    simp at h
  · rwa [if_neg hb] at h

/-- The expiry sweep never raises the active-beta count. -/
theorem cleanup_count_le (now : Int) (s : List TrialRow) :
    betaUserCountAgg ((cleanupExpiredTrials now s).1) ≤ betaUserCountAgg s := by
  refine betaUserCountAgg_map_le _ ?_ s
  intro a h
  by_cases hb : (decide (a.trialEndDate < now) && a.isActive) = true
  · rw [if_pos hb] at h
    simp at h
  · rwa [if_neg hb] at h

/-- Every sequential trial operation preserves the quota bound. -/
theorem betaUserCountAgg_applyTrialOp (s : List TrialRow) (op : TrialOp)
    (h : betaUserCountAgg s ≤ MAX_BETA_USERS) :
    betaUserCountAgg (applyTrialOp s op) ≤ MAX_BETA_USERS := by
  cases op with
  | create now uid email =>
    rw [applyTrialOp_create_eq, betaUserCountAgg_append]
    by_cases hc : betaUserCountAgg s < MAX_BETA_USERS
    · have hcond :
          ((decide (betaUserCountAgg s < MAX_BETA_USERS) : Bool) && true) = true := by
        simp [hc]
      simp only [hcond, if_true]
      omega
    · have hcond :
          ((decide (betaUserCountAgg s < MAX_BETA_USERS) : Bool) && true) = false := by
        simp [hc]
      simp only [hcond, Bool.false_eq_true, if_false]
      omega
  | endT uid => exact Nat.le_trans (endTrial_count_le uid s) h
  | cleanup now => exact Nat.le_trans (cleanup_count_le now s) h

/-- Running any sequence of trial operations preserves the quota bound. -/
theorem runTrialOps_count_le (ops : List TrialOp) :
    ∀ s : List TrialRow, betaUserCountAgg s ≤ MAX_BETA_USERS →
      betaUserCountAgg (runTrialOps ops s) ≤ MAX_BETA_USERS := by
  induction ops with
  | nil => intro s h; simpa only [runTrialOps, List.foldl_nil]
  | cons op rest ih =>
    intro s h
    simp only [runTrialOps, List.foldl_cons] at ih ⊢
    exact ih (applyTrialOp s op) (betaUserCountAgg_applyTrialOp s op h)

/-- The beta-number fold with an arbitrary seed. -/
theorem maxBetaUserNumber_foldr_init (s : List TrialRow) (b : Nat) :
    s.foldr (fun r m => if r.isBetaUser then max (r.betaUserNumber.getD 0) m
      else m) b = max (maxBetaUserNumber s) b := by
  induction s generalizing b with
  | nil => simp [maxBetaUserNumber]
  | cons a t ih =>
    simp only [maxBetaUserNumber, List.foldr_cons] at ih ⊢
    by_cases hb : a.isBetaUser = true
    · rw [if_pos hb, if_pos hb, ih, ih 0]
      exact (Nat.max_assoc _ _ _).symm
    · rw [if_neg hb, if_neg hb, ih]

/-- Appending one row to the table takes a max with its beta number. -/
theorem maxBetaUserNumber_append (s : List TrialRow) (r : TrialRow) :
    maxBetaUserNumber (s ++ [r]) =
      max (maxBetaUserNumber s)
        (if r.isBetaUser then r.betaUserNumber.getD 0 else 0) := by
  unfold maxBetaUserNumber
  rw [List.foldr_append, maxBetaUserNumber_foldr_init]
  congr 1
  by_cases hb : r.isBetaUser = true
  · rw [List.foldr_cons, List.foldr_nil, if_pos hb, if_pos hb]
    simp
  · rw [List.foldr_cons, List.foldr_nil, if_neg hb, if_neg hb]

/-- A rewrite that keeps `isBetaUser` and `betaUserNumber` keeps the number
aggregate. -/
theorem maxBetaUserNumber_map_eq (f : TrialRow → TrialRow)
    (hf : ∀ a : TrialRow, (f a).isBetaUser = a.isBetaUser ∧
      (f a).betaUserNumber = a.betaUserNumber) (s : List TrialRow) :
    maxBetaUserNumber (s.map f) = maxBetaUserNumber s := by
  induction s with
  | nil => rfl
  | cons a t ih =>
    simp only [maxBetaUserNumber, List.map_cons, List.foldr_cons] at ih ⊢
    rw [(hf a).1, (hf a).2, ih]

/-- `endTrial` keeps the number aggregate. -/
theorem endTrial_max_eq (uid : Nat) (s : List TrialRow) :
    maxBetaUserNumber (endTrial uid s) = maxBetaUserNumber s := by
  refine maxBetaUserNumber_map_eq _ ?_ s
  intro a
  by_cases hb : (a.userId == uid) = true
  · rw [if_pos hb]
    exact ⟨rfl, rfl⟩
  · rw [if_neg hb]
    exact ⟨rfl, rfl⟩

/-- The expiry sweep keeps the number aggregate. -/
theorem cleanup_max_eq (now : Int) (s : List TrialRow) :
    maxBetaUserNumber ((cleanupExpiredTrials now s).1) = maxBetaUserNumber s := by
  refine maxBetaUserNumber_map_eq _ ?_ s
  intro a
  by_cases hb : (decide (a.trialEndDate < now) && a.isActive) = true
  · rw [if_pos hb]
    exact ⟨rfl, rfl⟩
  · rw [if_neg hb]
    exact ⟨rfl, rfl⟩

/-- A beta-admitting `create` step raises the number aggregate to exactly
the number it assigns. -/
theorem create_max_eq_succ (s : List TrialRow) (now : Int) (uid : Nat)
    (email : String) (hc : betaUserCountAgg s < MAX_BETA_USERS) :
    maxBetaUserNumber (applyTrialOp s (.create now uid email)) =
      maxBetaUserNumber s + 1 := by
  rw [applyTrialOp_create_eq, maxBetaUserNumber_append]
  simp [hc, nextBetaUserNumberAgg]

/-- A quota-closed `create` step keeps the number aggregate. -/
theorem create_max_eq_stay (s : List TrialRow) (now : Int) (uid : Nat)
    (email : String) (hc : ¬betaUserCountAgg s < MAX_BETA_USERS) :
    maxBetaUserNumber (applyTrialOp s (.create now uid email)) =
      maxBetaUserNumber s := by
  rw [applyTrialOp_create_eq, maxBetaUserNumber_append]
  simp [hc]

/-- Unfolding one `create` step of `assignedNumbers`. -/
theorem assignedNumbers_cons_create (s : List TrialRow) (now : Int) (uid : Nat)
    (email : String) (rest : List TrialOp) :
    assignedNumbers s (.create now uid email :: rest) =
      (if betaUserCountAgg s < MAX_BETA_USERS then
        [nextBetaUserNumberAgg s] else []) ++
      assignedNumbers (applyTrialOp s (.create now uid email)) rest := by
  simp only [assignedNumbers]
  congr 1
  rw [createTrial_agg_row]
  by_cases hc : betaUserCountAgg s < MAX_BETA_USERS
  · rw [if_pos hc, if_pos hc]
    rfl
  · rw [if_neg hc, if_neg hc]
    rfl

/-- Unfolding one `endTrial` step of `assignedNumbers`. -/
theorem assignedNumbers_cons_endT (s : List TrialRow) (uid : Nat)
    (rest : List TrialOp) :
    assignedNumbers s (.endT uid :: rest) =
      assignedNumbers (applyTrialOp s (.endT uid)) rest := by
  simp [assignedNumbers]

/-- Unfolding one `cleanup` step of `assignedNumbers`. -/
theorem assignedNumbers_cons_cleanup (s : List TrialRow) (now : Int)
    (rest : List TrialOp) :
    assignedNumbers s (.cleanup now :: rest) =
      assignedNumbers (applyTrialOp s (.cleanup now)) rest := by
  simp [assignedNumbers]

/-- Every number a sequence assigns exceeds the starting number aggregate,
and the assigned numbers are strictly increasing in execution order. -/
theorem assignedNumbers_spec (ops : List TrialOp) :
    ∀ s : List TrialRow,
      (∀ n ∈ assignedNumbers s ops, maxBetaUserNumber s < n) ∧
      List.Chain' (fun a b : Nat => a < b) (assignedNumbers s ops) := by
  induction ops with
  | nil =>
    intro s
    constructor
    · intro n hn
      simp [assignedNumbers] at hn
    · simp [assignedNumbers]
  | cons op rest ih =>
    intro s
    cases op with
    | create now uid email =>
      by_cases hc : betaUserCountAgg s < MAX_BETA_USERS
      · rw [assignedNumbers_cons_create, if_pos hc]
        have hmax := create_max_eq_succ s now uid email hc
        obtain ⟨ih1, ih2⟩ := ih (applyTrialOp s (.create now uid email))
        rw [hmax] at ih1
        constructor
        · intro n hn
          rcases List.mem_cons.mp (by simpa using hn) with h | h
          · subst h
            show maxBetaUserNumber s < maxBetaUserNumber s + 1
            omega
          · have := ih1 n h
            omega
        · show List.Chain' (fun a b : Nat => a < b)
            (nextBetaUserNumberAgg s ::
              assignedNumbers (applyTrialOp s (.create now uid email)) rest)
          rw [List.chain'_cons']
          constructor
          · intro y hy
            exact ih1 y (List.mem_of_mem_head? hy)
          · exact ih2
      · rw [assignedNumbers_cons_create, if_neg hc, List.nil_append]
        have hmax := create_max_eq_stay s now uid email hc
        obtain ⟨ih1, ih2⟩ := ih (applyTrialOp s (.create now uid email))
        rw [hmax] at ih1
        exact ⟨ih1, ih2⟩
    | endT uid =>
      rw [assignedNumbers_cons_endT]
      have hmax : maxBetaUserNumber (applyTrialOp s (.endT uid)) =
          maxBetaUserNumber s := by
        rw [show applyTrialOp s (.endT uid) = endTrial uid s from rfl]
        exact endTrial_max_eq uid s
      obtain ⟨ih1, ih2⟩ := ih (applyTrialOp s (.endT uid))
      rw [hmax] at ih1
      exact ⟨ih1, ih2⟩
    | cleanup now =>
      rw [assignedNumbers_cons_cleanup]
      have hmax : maxBetaUserNumber (applyTrialOp s (.cleanup now)) =
          maxBetaUserNumber s := by
        rw [show applyTrialOp s (.cleanup now) =
          (cleanupExpiredTrials now s).1 from rfl]
        exact cleanup_max_eq now s
      obtain ⟨ih1, ih2⟩ := ih (applyTrialOp s (.cleanup now))
      rw [hmax] at ih1
      exact ⟨ih1, ih2⟩

/-- Starting from a table whose number aggregate is 0, the first assigned
number is 1. -/
theorem assignedNumbers_head_one (ops : List TrialOp) :
    ∀ s : List TrialRow, maxBetaUserNumber s = 0 →
      ∀ (n : Nat) (l : List Nat), assignedNumbers s ops = n :: l → n = 1 := by
  induction ops with
  | nil =>
    intro s h0 n l h
    simp [assignedNumbers] at h
  | cons op rest ih =>
    intro s h0 n l h
    cases op with
    | create now uid email =>
      by_cases hc : betaUserCountAgg s < MAX_BETA_USERS
      · rw [assignedNumbers_cons_create, if_pos hc] at h
        have h1 : nextBetaUserNumberAgg s = n := by
          have h2 := congrArg List.head? h
          simpa using h2
        rw [← h1]
        show maxBetaUserNumber s + 1 = 1
        rw [h0]
      · rw [assignedNumbers_cons_create, if_neg hc, List.nil_append] at h
        refine ih (applyTrialOp s (.create now uid email)) ?_ n l h
        rw [create_max_eq_stay s now uid email hc]
        exact h0
    | endT uid =>
      rw [assignedNumbers_cons_endT] at h
      refine ih (applyTrialOp s (.endT uid)) ?_ n l h
      rw [show applyTrialOp s (.endT uid) = endTrial uid s from rfl,
        endTrial_max_eq]
      exact h0
    | cleanup now =>
      rw [assignedNumbers_cons_cleanup] at h
      refine ih (applyTrialOp s (.cleanup now)) ?_ n l h
      rw [show applyTrialOp s (.cleanup now) =
        (cleanupExpiredTrials now s).1 from rfl, cleanup_max_eq]
      exact h0

/-- C3 (amended): over any strictly sequential run of `createTrial`,
`endTrial` and `cleanupExpiredTrials` against consistent aggregates starting
from an empty table, the number of rows with `isActive AND isBetaUser` (the
quota aggregate) never exceeds 100, and the assigned `betaUserNumber` values
form a strictly increasing — hence distinct — sequence of positive integers
whose first element is 1. The total number of rows ever marked
`isBetaUser = true` can exceed 100 once beta trials are deactivated (see the
counterexample). -/
theorem c3_quota_and_numbering (ops : List TrialOp) :
    betaUserCountAgg (runTrialOps ops []) ≤ MAX_BETA_USERS ∧
    List.Chain' (fun a b : Nat => a < b) (assignedNumbers [] ops) ∧
    (∀ n ∈ assignedNumbers [] ops, 1 ≤ n) ∧
    (∀ (n : Nat) (l : List Nat), assignedNumbers [] ops = n :: l → n = 1) := by
  refine ⟨runTrialOps_count_le ops [] (by decide),
    (assignedNumbers_spec ops []).2, ?_,
    assignedNumbers_head_one ops [] rfl⟩
  intro n hn
  have h := (assignedNumbers_spec ops []).1 n hn
  have h0 : maxBetaUserNumber ([] : List TrialRow) = 0 := rfl
  rw [h0] at h
  omega

/-- C3 counterexample: 100 signups fill the quota with beta rows; after one
`endTrial` the quota aggregate drops and the next signup is admitted as
beta again, so 101 rows carry `isBetaUser = true` — the claim's bound on
rows with `isBetaUser = true` fails once `endTrial` is interleaved. -/
theorem c3_counterexample :
    MAX_BETA_USERS <
      ((runTrialOps c3Ops []).filter (fun r => r.isBetaUser)).length := by
  decide

/-- C3 witness: a single signup from the empty store assigns number 1. -/
theorem c3_quota_and_numbering_witness :
    (1 : Nat) ∈ assignedNumbers [] [TrialOp.create 0 1 "b"] ∧ (1 : Nat) ≤ 1 :=
  ⟨by decide,
   (c3_quota_and_numbering [TrialOp.create 0 1 "b"]).2.2.1 1 (by decide)⟩
